import Mathlib

/-!
Shallow embedding of the macOS application-delegate bridge
(`src-tauri/vendor/tao/src/platform_impl/macos/app_delegate.rs`).

URL values are kept abstract: each handler is parameterized by the parsing
functions of the external `url` crate (`url::Url::parse` and
`url::Url::from_file_path`), modelled as functions `String → Option α`.
Effects on the external `AppState` collaborator are made explicit: besides
its boolean result, each handler returns the list of `AppState::open_urls`
calls it performed, one list element per call, holding that call's batch of
URLs.  Error logging (`error!`) and invocations of the OS restoration
handler are tracked the same way.
-/

namespace AppDelegate

/-- The foundation constant `NSUserActivityTypeBrowsingWeb`, compared by
string value (`isEqualToString` / `NSString` equality in the source). -/
def NSUserActivityTypeBrowsingWeb : String := "NSUserActivityTypeBrowsingWeb"

/-- `crate::platform::macos::ActivationPolicy`: enumeration with the three
variants Regular, Accessory, Prohibited. -/
inductive ActivationPolicy
  | Regular
  | Accessory
  | Prohibited
deriving DecidableEq, Repr

/-- `AuxDelegateState` from the source.  `last_dock_show` is a
`Mutex<Option<Instant>>` in the source; the mutex is interior mutability
only and `Instant` is an opaque timestamp, modelled by `Nat`. -/
structure AuxDelegateState where
  activation_policy : ActivationPolicy
  dock_visibility : Bool
  last_dock_show : Option Nat
  activate_ignoring_other_apps : Bool
deriving DecidableEq, Repr

/-- The allocation hook `new`: the fresh `AuxDelegateState` it boxes and
attaches to the newly allocated delegate instance. -/
def new : AuxDelegateState :=
  { activation_policy := ActivationPolicy.Regular
    activate_ignoring_other_apps := true
    dock_visibility := true
    last_dock_show := none }

/-- `application_open_urls`: receives an array of `NSURL`s (modelled by
their absolute strings), re-parses each through `url::Url::parse`
(`flat_map` over the `Result`, i.e. `filterMap` over the parse function),
and passes the collected vector to `AppState::open_urls` unconditionally.
The returned value is the list of `open_urls` calls made. -/
def application_open_urls {α : Type} (parse : String → Option α)
    (urls : List String) : List (List α) :=
  let parsed := urls.filterMap parse
  [parsed]

/-- `application_open_file`: parses the single filename through
`url::Url::from_file_path`; if the resulting vector is non-empty it calls
`AppState::open_urls` once and returns true, otherwise it makes no call and
returns false.  Result: (returned boolean, list of `open_urls` calls). -/
def application_open_file {α : Type} (from_file_path : String → Option α)
    (filename : String) : Bool × List (List α) :=
  let urls : List α :=
    match from_file_path filename with
    | some url => [url]
    | none => []
  if !urls.isEmpty then (true, [urls]) else (false, [])

/-- `application_open_files`: parses each filename through
`url::Url::from_file_path` (`filter_map` over the `Result`), and passes the
collected vector to `AppState::open_urls` unconditionally.  The returned
value is the list of `open_urls` calls made. -/
def application_open_files {α : Type} (from_file_path : String → Option α)
    (filenames : List String) : List (List α) :=
  [filenames.filterMap from_file_path]

/-- `application_open_file_without_ui`: parses the single filename through
`url::Url::from_file_path` (`ok().into_iter().collect()`, i.e.
`Option.toList`); if the vector is non-empty it calls
`AppState::open_urls` once and returns true, otherwise false. -/
def application_open_file_without_ui {α : Type} (from_file_path : String → Option α)
    (filename : String) : Bool × List (List α) :=
  let urls : List α := (from_file_path filename).toList
  if !urls.isEmpty then (true, [urls]) else (false, [])

/-- `application_open_temp_file`: identical body to
`application_open_file_without_ui` in the source. -/
def application_open_temp_file {α : Type} (from_file_path : String → Option α)
    (filename : String) : Bool × List (List α) :=
  let urls : List α := (from_file_path filename).toList
  if !urls.isEmpty then (true, [urls]) else (false, [])

/-- `application_will_continue_user_activity_with_type`: true iff the
activity-type string equals `NSUserActivityTypeBrowsingWeb`. -/
def application_will_continue_user_activity_with_type
    (user_activity_type : String) : Bool :=
  user_activity_type == NSUserActivityTypeBrowsingWeb

/-- The parts of an `NSUserActivity` the bridge reads: its type string and
the absolute string of its webpage URL (the source's
`webpageURL().and_then(absoluteString)` chain, collapsed to one option). -/
structure NSUserActivity where
  activityType : String
  webpageURL : Option String
deriving DecidableEq, Repr

/-- The two distinct `error!` messages of
`application_continue_user_activity`. -/
inductive LogEvent
  | errorEmptyUrl
  | errorParseFailed
deriving DecidableEq, Repr

/-- Observable outcome of `application_continue_user_activity`: the boolean
returned to the OS, the `AppState::open_urls` calls made, the `error!`
logs emitted, and how many times the OS restoration handler was invoked. -/
structure ContinueActivityResult (α : Type) where
  returned : Bool
  openUrlsCalls : List (List α)
  errorLogs : List LogEvent
  restorationHandlerInvocations : Nat
deriving DecidableEq, Repr

/-- `application_continue_user_activity`: if the activity type is the
browsing-web constant, extract the webpage URL string; if absent, log an
error and return false; if it fails to parse, log an error and return
false; otherwise call `AppState::open_urls(vec![url])` and return true.
Any other activity type returns false with no call and no log.  The
restoration handler parameter (type `ρ`) is accepted and never used. -/
def application_continue_user_activity {α ρ : Type} (parse : String → Option α)
    (user_activity : NSUserActivity) (_restoration_handler : ρ) :
    ContinueActivityResult α :=
  if user_activity.activityType = NSUserActivityTypeBrowsingWeb then
    match user_activity.webpageURL with
    | none =>
        { returned := false, openUrlsCalls := [],
          errorLogs := [LogEvent.errorEmptyUrl],
          restorationHandlerInvocations := 0 }
    | some url_string =>
        match parse url_string with
        | some url =>
            { returned := true, openUrlsCalls := [[url]],
              errorLogs := [], restorationHandlerInvocations := 0 }
        | none =>
            { returned := false, openUrlsCalls := [],
              errorLogs := [LogEvent.errorParseFailed],
              restorationHandlerInvocations := 0 }
  else
    { returned := false, openUrlsCalls := [], errorLogs := [],
      restorationHandlerInvocations := 0 }

/-- Observable outcome of `application_should_handle_reopen`: the
`AppState::reopen` calls made (each element one call's boolean argument)
and the `BOOL` returned to the OS. -/
structure ReopenOutput where
  reopenCalls : List Bool
  returned : Bool
deriving DecidableEq, Repr

/-- `application_should_handle_reopen`: forwards the incoming
`hasVisibleWindows` boolean to `AppState::reopen` and returns it
unchanged. -/
def application_should_handle_reopen (has_visible_windows : Bool) :
    ReopenOutput :=
  { reopenCalls := [has_visible_windows], returned := has_visible_windows }

/-- A concrete `url::Url::from_file_path` stand-in used by witnesses:
accepts exactly the path "a", yielding the URL token `1`. -/
def fileParseWit : String → Option Nat :=
  fun s => if s = "a" then some 1 else none

/-- `application_supports_secure_restorable_state`: returns `YES`.  The
delegate object (and hence its attached `AuxDelegateState`) is ignored. -/
def application_supports_secure_restorable_state
    (_this : AuxDelegateState) : Bool :=
  true

/-- The length of `filterMap f l` is the number of elements of `l` on which
`f` succeeds. -/
theorem filterMap_length_eq_count_isSome {α β : Type} (f : α → Option β) :
    ∀ l : List α,
      (l.filterMap f).length = (l.filter (fun a => (f a).isSome)).length := by
  intro l
  induction l with
  | nil => rfl
  | cons a l ih =>
    cases h : f a <;>
      simp [List.filterMap_cons, List.filter_cons, h, ih]

/-- C1 counterexample: `application:openURLs:` with an empty URL array
still makes one `AppState::open_urls` call, with the empty batch, so the
claim that no call happens when the parsed sequence is empty is false. -/
theorem open_urls_empty_batch_counterexample :
    application_open_urls (fun _ => (none : Option Nat)) [] = [[]] ∧
    application_open_urls (fun _ => (none : Option Nat)) [] ≠ [] := by
  constructor
  · rfl
  · decide

/-- C1 (amended): every open-request handler calls `AppState::open_urls`
at most once per invocation.  The URL-list and file-list variants call it
exactly once, with the (possibly empty) batch of successfully parsed URLs;
the three single-file handlers and `continueActivity` call it only with a
non-empty batch. -/
theorem open_urls_call_discipline {α ρ : Type} (parse ffp : String → Option α)
    (urls filenames : List String) (f1 f2 f3 : String)
    (act : NSUserActivity) (rh : ρ) :
    (application_open_urls parse urls).length = 1 ∧
    (application_open_files ffp filenames).length = 1 ∧
    (application_open_file ffp f1).2.length ≤ 1 ∧
    (application_open_file ffp f1).2.all (fun b => !b.isEmpty) = true ∧
    (application_open_file_without_ui ffp f2).2.length ≤ 1 ∧
    (application_open_file_without_ui ffp f2).2.all (fun b => !b.isEmpty) = true ∧
    (application_open_temp_file ffp f3).2.length ≤ 1 ∧
    (application_open_temp_file ffp f3).2.all (fun b => !b.isEmpty) = true ∧
    (application_continue_user_activity parse act rh).openUrlsCalls.length ≤ 1 ∧
    (application_continue_user_activity parse act rh).openUrlsCalls.all
      (fun b => !b.isEmpty) = true := by
  refine ⟨rfl, rfl, ?_, ?_, ?_, ?_, ?_, ?_, ?_, ?_⟩
  · cases h : ffp f1 <;> simp [application_open_file, h]
  · cases h : ffp f1 <;> simp [application_open_file, h]
  · cases h : ffp f2 <;> simp [application_open_file_without_ui, h]
  · cases h : ffp f2 <;> simp [application_open_file_without_ui, h]
  · cases h : ffp f3 <;> simp [application_open_temp_file, h]
  · cases h : ffp f3 <;> simp [application_open_temp_file, h]
  · unfold application_continue_user_activity
    split
    · split
      · simp
      · split <;> simp
    · simp
  · unfold application_continue_user_activity
    split
    · split
      · simp
      · split <;> simp
    · simp

/-- C2: `continueActivity` on a non-browsing-web activity returns false
with no `open_urls` call and no log; on a browsing-web activity with no
webpage URL it logs the empty-url error, returns false and forwards
nothing; with a URL string that fails to parse it logs the parse error,
returns false and forwards nothing; with a URL that parses it makes a
single `open_urls([url])` call and returns true. -/
theorem continue_user_activity_cases {α ρ : Type} (parse : String → Option α)
    (act : NSUserActivity) (rh : ρ) :
    (act.activityType ≠ NSUserActivityTypeBrowsingWeb →
      application_continue_user_activity parse act rh =
        { returned := false, openUrlsCalls := [], errorLogs := [],
          restorationHandlerInvocations := 0 }) ∧
    (act.activityType = NSUserActivityTypeBrowsingWeb →
      act.webpageURL = none →
      application_continue_user_activity parse act rh =
        { returned := false, openUrlsCalls := [],
          errorLogs := [LogEvent.errorEmptyUrl],
          restorationHandlerInvocations := 0 }) ∧
    (∀ s, act.activityType = NSUserActivityTypeBrowsingWeb →
      act.webpageURL = some s → parse s = none →
      application_continue_user_activity parse act rh =
        { returned := false, openUrlsCalls := [],
          errorLogs := [LogEvent.errorParseFailed],
          restorationHandlerInvocations := 0 }) ∧
    (∀ s u, act.activityType = NSUserActivityTypeBrowsingWeb →
      act.webpageURL = some s → parse s = some u →
      application_continue_user_activity parse act rh =
        { returned := true, openUrlsCalls := [[u]], errorLogs := [],
          restorationHandlerInvocations := 0 }) := by
  refine ⟨?_, ?_, ?_, ?_⟩
  · intro h
    simp [application_continue_user_activity, h]
  · intro h hu
    simp [application_continue_user_activity, h, hu]
  · intro s h hu hp
    simp [application_continue_user_activity, h, hu, hp]
  · intro s u h hu hp
    simp [application_continue_user_activity, h, hu, hp]

/-- C2 witness: the four cases of `continue_user_activity_cases`
instantiated at concrete activities. -/
theorem continue_user_activity_cases_witness :
    application_continue_user_activity (fun _ => (some 1 : Option Nat))
        { activityType := "other", webpageURL := none } () =
      { returned := false, openUrlsCalls := [], errorLogs := [],
        restorationHandlerInvocations := 0 } ∧
    application_continue_user_activity (fun _ => (some 1 : Option Nat))
        { activityType := NSUserActivityTypeBrowsingWeb, webpageURL := none } () =
      { returned := false, openUrlsCalls := [],
        errorLogs := [LogEvent.errorEmptyUrl],
        restorationHandlerInvocations := 0 } ∧
    application_continue_user_activity (fun _ => (none : Option Nat))
        { activityType := NSUserActivityTypeBrowsingWeb,
          webpageURL := some "bad" } () =
      { returned := false, openUrlsCalls := [],
        errorLogs := [LogEvent.errorParseFailed],
        restorationHandlerInvocations := 0 } ∧
    application_continue_user_activity (fun _ => (some 1 : Option Nat))
        { activityType := NSUserActivityTypeBrowsingWeb,
          webpageURL := some "https" } () =
      { returned := true, openUrlsCalls := [[1]], errorLogs := [],
        restorationHandlerInvocations := 0 } :=
  ⟨(continue_user_activity_cases (fun _ => (some 1 : Option Nat))
      { activityType := "other", webpageURL := none } ()).1 (by decide),
   (continue_user_activity_cases (fun _ => (some 1 : Option Nat))
      { activityType := NSUserActivityTypeBrowsingWeb, webpageURL := none }
      ()).2.1 rfl rfl,
   (continue_user_activity_cases (fun _ => (none : Option Nat))
      { activityType := NSUserActivityTypeBrowsingWeb, webpageURL := some "bad" }
      ()).2.2.1 "bad" rfl rfl rfl,
   (continue_user_activity_cases (fun _ => (some 1 : Option Nat))
      { activityType := NSUserActivityTypeBrowsingWeb, webpageURL := some "https" }
      ()).2.2.2 "https" 1 rfl rfl rfl⟩

/-- C3: for every non-empty list of file paths, `application:openFiles:`
makes exactly one `open_urls` call whose batch is the parse results of the
valid inputs in input order; the batch length is the number of valid
inputs, and an input that fails to parse is dropped without affecting its
siblings. -/
theorem open_files_order_and_drop {α : Type} (ffp : String → Option α)
    (files : List String) (h : files ≠ []) :
    application_open_files ffp files = [files.filterMap ffp] ∧
    (files.filterMap ffp).length =
      (files.filter (fun s => (ffp s).isSome)).length ∧
    ∀ xs bad ys, files = xs ++ bad :: ys → ffp bad = none →
      files.filterMap ffp = xs.filterMap ffp ++ ys.filterMap ffp := by
  refine ⟨rfl, filterMap_length_eq_count_isSome ffp files, ?_⟩
  intro xs bad ys hsplit hbad
  subst hsplit
  simp [List.filterMap_append, List.filterMap_cons, hbad]

/-- C3 witness: `open_files_order_and_drop` at the concrete input
`["a", "b"]` with a parser accepting only "a". -/
theorem open_files_order_and_drop_witness :
    application_open_files fileParseWit ["a", "b"] =
      [(["a", "b"].filterMap fileParseWit)] ∧
    (["a", "b"].filterMap fileParseWit).length =
      (["a", "b"].filter (fun s => (fileParseWit s).isSome)).length ∧
    ["a", "b"].filterMap fileParseWit =
      ["a"].filterMap fileParseWit ++ ([] : List String).filterMap fileParseWit :=
  ⟨(open_files_order_and_drop fileParseWit ["a", "b"] (by decide)).1,
   (open_files_order_and_drop fileParseWit ["a", "b"] (by decide)).2.1,
   (open_files_order_and_drop fileParseWit ["a", "b"] (by decide)).2.2
     ["a"] "b" [] rfl (by decide)⟩

/-- C4: the single-file open handler returns true iff the path parses to a
valid file URL; when it does, it makes exactly the one call
`open_urls([url])`, and when it does not, it makes no call. -/
theorem open_file_true_iff_parses {α : Type} (ffp : String → Option α)
    (filename : String) :
    ((application_open_file ffp filename).1 = true ↔
      ∃ u, ffp filename = some u) ∧
    (∀ u, ffp filename = some u →
      application_open_file ffp filename = (true, [[u]])) ∧
    (ffp filename = none →
      application_open_file ffp filename = (false, [])) := by
  refine ⟨?_, ?_, ?_⟩
  · cases h : ffp filename <;> simp [application_open_file, h]
  · intro u hu
    simp [application_open_file, hu]
  · intro hn
    simp [application_open_file, hn]

/-- C4 witness: the true case at path "a" and the false case at path "b"
of `open_file_true_iff_parses` with the concrete parser. -/
theorem open_file_true_iff_parses_witness :
    application_open_file fileParseWit "a" = (true, [[1]]) ∧
    application_open_file fileParseWit "b" = (false, []) :=
  ⟨(open_file_true_iff_parses fileParseWit "a").2.1 1 (by decide),
   (open_file_true_iff_parses fileParseWit "b").2.2 (by decide)⟩

/-- C5: `willContinueActivity` returns true iff the activity-type string
equals `NSUserActivityTypeBrowsingWeb`. -/
theorem will_continue_true_iff_browsing (t : String) :
    application_will_continue_user_activity_with_type t = true ↔
      t = NSUserActivityTypeBrowsingWeb := by
  simp [application_will_continue_user_activity_with_type]

/-- C6: `shouldHandleReopen(b)` calls `AppState::reopen` exactly once,
with exactly `b`, and returns `b` unchanged. -/
theorem should_handle_reopen_forwards (b : Bool) :
    (application_should_handle_reopen b).reopenCalls = [b] ∧
    (application_should_handle_reopen b).returned = b :=
  ⟨rfl, rfl⟩

/-- C7: the allocation hook's fresh `AuxDelegateState` has exactly the
defaults Regular activation policy, visible dock, activate ignoring other
apps, and no last dock show timestamp. -/
theorem new_aux_state_defaults :
    new.activation_policy = ActivationPolicy.Regular ∧
    new.dock_visibility = true ∧
    new.activate_ignoring_other_apps = true ∧
    new.last_dock_show = none :=
  ⟨rfl, rfl, rfl, rfl⟩

/-- C8: the three single-file handlers (open file, open file without UI,
open temp file) agree on every parser and every path: same boolean result
and the same `open_urls` calls. -/
theorem single_file_handlers_equivalent {α : Type}
    (ffp : String → Option α) (filename : String) :
    application_open_file ffp filename =
      application_open_file_without_ui ffp filename ∧
    application_open_file_without_ui ffp filename =
      application_open_temp_file ffp filename := by
  constructor
  · cases h : ffp filename <;>
      simp [application_open_file, application_open_file_without_ui, h]
  · rfl

/-- C9: `supportsSecureRestorableState` returns true whatever the
delegate's attached `AuxDelegateState` holds. -/
theorem supports_secure_restorable_state_always (s : AuxDelegateState) :
    application_supports_secure_restorable_state s = true :=
  rfl

/-- C10: `continueActivity` never invokes the restoration-handler
argument, and its entire observable outcome is independent of that
argument, even across different handler types. -/
theorem restoration_handler_never_invoked {α ρ ρ' : Type}
    (parse : String → Option α) (act : NSUserActivity) (rh : ρ) (rh' : ρ') :
    (application_continue_user_activity parse act rh).restorationHandlerInvocations
      = 0 ∧
    application_continue_user_activity parse act rh =
      application_continue_user_activity parse act rh' := by
  constructor
  · unfold application_continue_user_activity
    split
    · split
      · rfl
      · split <;> rfl
    · rfl
  · rfl

end AppDelegate
